import Mathlib

/-!
Verification of the TikTok live WebSocket client (`src/lib/ws/lib/ws-client.ts`).

The client is embedded shallowly: the mutable fields of `TikTokWsClient` that the
protocol logic reads or writes become a `WsState` record, and each handler or
method becomes a pure function from state to state plus an ordered list of
observable `Effect`s (event emissions, frames handed to the transport, transport
close requests).  Wire serialization is performed by external collaborators
(protobuf message classes and `deserializeWebSocketMessage`), so an outbound
payload is modelled by which message was encoded into it, and each inbound
binary message carries its own decode outcome.
-/

/-- Fields of the protobuf `WebcastImEnterRoomMessage` built by `switchRooms`. -/
structure WebcastImEnterRoomFields where
  roomId : String
  roomTag : String
  liveRegion : String
  liveId : String
  identity : String
  cursor : String
  accountType : String
  enterUniqueId : String
  filterWelcomeMsg : String
  isAnchorContinueKeepMsg : Bool
deriving DecidableEq, Repr

/-- An outbound typed payload.  `heartbeat roomId` stands for
`HeartbeatMessage.encode(\x7b roomId \x7d).finish()`, `imEnterRoom msg` for
`WebcastImEnterRoomMessage.encode(msg).finish()`, and `utf8Text s` for
`textEncoder.encode(s)` — the UTF-8 bytes of `s`, not a protocol-encoded
message. -/
inductive Payload where
  | heartbeat (roomId : String)
  | imEnterRoom (msg : WebcastImEnterRoomFields)
  | utf8Text (text : String)
deriving DecidableEq, Repr

/-- The outbound wire envelope (`WebcastPushFrame`). -/
structure PushFrame where
  logId : Option String
  payloadEncoding : String
  payloadType : String
  payload : Payload
  headers : List (String × String)
  service : Option String
  method : Option String
deriving DecidableEq, Repr

/-- The structured sub-message a decoded container may carry. -/
structure ProtoMessageFetchResult where
  needsAck : Bool
  internalExt : String
deriving DecidableEq, Repr

/-- Result of decoding a binary push frame (`DecodedWebcastPushFrame`).
`logId = none` models an absent id; `some ""` an empty one — both are falsy
under the source's `if (!logId)` guard. -/
structure DecodedWebcastPushFrame where
  logId : Option String
  payloadType : String
  protoMessageFetchResult : Option ProtoMessageFetchResult
deriving DecidableEq, Repr

/-- Outcome of `deserializeWebSocketMessage` on a binary message.  Decoding is
performed by an external collaborator, so each binary message is modelled
together with its decode outcome. -/
inductive DecodeResult where
  | ok (container : DecodedWebcastPushFrame)
  | err (error : String)
deriving DecidableEq, Repr

/-- An inbound transport message: `message.type` is either `'binary'` (with its
decode outcome) or something else (modelled as `text`). -/
inductive WsMessage where
  | text (data : String)
  | binary (decoded : DecodeResult)
deriving DecidableEq, Repr

/-- Events the client emits on its typed event-emitter surface. -/
inductive Event where
  | close
  | messageDecodingFailed (error : String)
  | unknownResponse (message : WsMessage)
  | protoMessageFetchResult (response : ProtoMessageFetchResult)
  | webSocketData (data : WsMessage)
  | imEnteredRoom (decodedContainer : DecodedWebcastPushFrame)
deriving DecidableEq, Repr

/-- An observable side effect of a handler, in program order. -/
inductive Effect where
  | emit (event : Event)
  | sendFrame (frame : PushFrame)
  | closeRequest (code : Nat)
deriving DecidableEq, Repr

/-- Outcome of `sendAck`: JavaScript destructuring of
`protoMessageFetchResult.internalExt` throws when the fetch result is absent,
otherwise the method returns normally with its send effects. -/
inductive AckResult where
  | thrown (error : String)
  | ok (effects : List Effect)
deriving DecidableEq, Repr

/-- The mutable client state read by the protocol logic: `connection`
(`WebSocketConnection | null`, the handle modelled by an opaque `Nat` id),
`pingInterval` (`NodeJS.Timeout | null`), and the connect-time
`webSocketParams.room_id` used by the heartbeat. -/
structure WsState where
  connection : Option Nat
  pingInterval : Option Unit
  room_id : String
deriving DecidableEq, Repr

/-- Modelled from the spec: `createBaseWebcastPushFrame` is defined in
`src/lib/utilities`, which is not among the provided source files.  Per the
spec it wraps the supplied fields into a base push frame with empty headers and
no service or method routing hints unless the caller provides them. -/
def createBaseWebcastPushFrame (logId : Option String) (payloadEncoding : String)
    (payloadType : String) (payload : Payload) : PushFrame :=
  { logId := logId, payloadEncoding := payloadEncoding, payloadType := payloadType,
    payload := payload, headers := [], service := none, method := none }

/-- The frame built by `sendHeartbeat`: payloadEncoding `'pb'`, payloadType
`'hb'`, payload the encoded heartbeat message carrying the room id,
service and method `undefined`, headers empty. -/
def heartbeatFrame (room_id : String) : PushFrame :=
  createBaseWebcastPushFrame none "pb" "hb" (Payload.heartbeat room_id)

/-- The frame built by `sendAck`: the triggering container's `logId`,
payloadEncoding `'pb'`, payloadType `'ack'`, payload the UTF-8 bytes of the
fetch result's `internalExt`. -/
def ackFrame (logId : String) (internalExt : String) : PushFrame :=
  createBaseWebcastPushFrame (some logId) "pb" "ack" (Payload.utf8Text internalExt)

/-- The `WebcastImEnterRoomMessage` literal built by `switchRooms`. -/
def imEnterRoomFields (roomId : String) : WebcastImEnterRoomFields :=
  { roomId := roomId, roomTag := "", liveRegion := "", liveId := "12",
    identity := "audience", cursor := "", accountType := "0", enterUniqueId := "",
    filterWelcomeMsg := "0", isAnchorContinueKeepMsg := false }

/-- The frame built by `switchRooms`: payloadEncoding `'pb'`, payloadType
`'im_enter_room'`, payload the encoded room-enter message. -/
def switchRoomsFrame (roomId : String) : PushFrame :=
  createBaseWebcastPushFrame none "pb" "im_enter_room"
    (Payload.imEnterRoom (imEnterRoomFields roomId))

/-- `sendBytes(data)`: if `this.connection` is non-null, send the bytes through
it and return `true`; otherwise return `false`.  The state is not modified. -/
def sendBytes (s : WsState) (data : PushFrame) : WsState × Bool × List Effect :=
  match s.connection with
  | some _ => (s, true, [Effect.sendFrame data])
  | none => (s, false, [])

/-- `sendHeartbeat()`: build the heartbeat frame from `webSocketParams.room_id`
and hand it to `sendBytes` (ignoring the returned flag). -/
def sendHeartbeat (s : WsState) : WsState × List Effect :=
  (s, (sendBytes s (heartbeatFrame s.room_id)).2.2)

/-- `onConnect(wsConnection)`: calls `this.sendHeartbeat()` first — while
`this.connection` still holds its previous value — and only afterwards stores
the connection handle and starts the ping interval. -/
def onConnect (s : WsState) (wsConnection : Nat) : WsState × List Effect :=
  let hb := sendHeartbeat s
  ({ hb.1 with connection := some wsConnection, pingInterval := some () }, hb.2)

/-- `onDisconnect()`: clears the ping interval and the connection handle, then
emits the `close` event. -/
def onDisconnect (s : WsState) : WsState × List Effect :=
  ({ s with pingInterval := none, connection := none }, [Effect.emit Event.close])

/-- `sendAck(container)`: parameter destructuring reads
`protoMessageFetchResult.internalExt` (throwing when the fetch result is
absent); then `if (!logId) return;` drops absent or empty ids silently, and
otherwise the ack frame is built and handed to `sendBytes`. -/
def sendAck (s : WsState) (container : DecodedWebcastPushFrame) : AckResult :=
  match container.protoMessageFetchResult with
  | none => AckResult.thrown "TypeError: cannot destructure internalExt"
  | some result =>
    match container.logId with
    | none => AckResult.ok []
    | some logId =>
      if logId.isEmpty then AckResult.ok []
      else AckResult.ok (sendBytes s (ackFrame logId result.internalExt)).2.2

/-- The effects of a `sendAck` call that returned normally. -/
def ackEffectsOf (s : WsState) (container : DecodedWebcastPushFrame) : List Effect :=
  match sendAck s container with
  | AckResult.ok effects => effects
  | AckResult.thrown _ => []

/-- Whether a `sendAck` call returned normally. -/
def ackOk (r : AckResult) : Bool :=
  match r with
  | AckResult.ok _ => true
  | AckResult.thrown _ => false

/-- `onMessage(message)`: emit `webSocketData` first; non-binary messages go to
`unknownResponse` and handling stops; binary messages are decoded, a decode
failure (or an exception thrown inside the try block) emits
`messageDecodingFailed`; on success the fetch-result branch (ack when
`needsAck`, then the `protoMessageFetchResult` event) and the
`im_enter_room_resp` branch run independently.  No state field is written. -/
def onMessage (s : WsState) (message : WsMessage) : WsState × List Effect :=
  let raw := Effect.emit (Event.webSocketData message)
  match message with
  | WsMessage.text _ => (s, [raw, Effect.emit (Event.unknownResponse message)])
  | WsMessage.binary (DecodeResult.err error) =>
      (s, [raw, Effect.emit (Event.messageDecodingFailed error)])
  | WsMessage.binary (DecodeResult.ok decodedContainer) =>
    match decodedContainer.protoMessageFetchResult with
    | some result =>
      match (if result.needsAck then sendAck s decodedContainer else AckResult.ok []) with
      | AckResult.thrown error =>
          (s, [raw, Effect.emit (Event.messageDecodingFailed error)])
      | AckResult.ok ackEffects =>
          (s, raw :: ackEffects ++
            Effect.emit (Event.protoMessageFetchResult result) ::
            (if decodedContainer.payloadType = "im_enter_room_resp"
             then [Effect.emit (Event.imEnteredRoom decodedContainer)] else []))
    | none =>
      (s, raw ::
        (if decodedContainer.payloadType = "im_enter_room_resp"
         then [Effect.emit (Event.imEnteredRoom decodedContainer)] else []))

/-- Sequential processing of inbound messages in arrival order, threading the
client state and concatenating the observable effects. -/
def processMessages : WsState → List WsMessage → WsState × List Effect
  | s, [] => (s, [])
  | s, m :: rest =>
    let r := onMessage s m
    let restR := processMessages r.1 rest
    (restR.1, r.2 ++ restR.2)

/-- How the promise returned by `close()` completes: deferred to the `close`
event (`this.once('close', resolve)` with a pending transport close), or
resolved immediately. -/
inductive CloseCompletion where
  | onCloseEvent
  | immediate
deriving DecidableEq, Repr

/-- `close()`: registers a once-listener for the `close` event; if a connection
is active it requests a transport close with code 1000 and the returned promise
resolves only when the `close` event later fires; otherwise it resolves
immediately without sending anything. -/
def close (s : WsState) : List Effect × CloseCompletion :=
  match s.connection with
  | some _ => ([Effect.closeRequest 1000], CloseCompletion.onCloseEvent)
  | none => ([], CloseCompletion.immediate)

/-- `switchRooms(roomId)`: build the room-enter frame and hand it to
`sendBytes`; no state field is written. -/
def switchRooms (s : WsState) (roomId : String) : WsState × List Effect :=
  (s, (sendBytes s (switchRoomsFrame roomId)).2.2)

/-- Lookup in a JavaScript object modelled as a key-value list where a later
entry for the same key overrides an earlier one (object-spread semantics). -/
def objGet : List (String × String) → String → Option String
  | [], _ => none
  | (k, v) :: rest, q =>
    match objGet rest q with
    | some w => some w
    | none => if k = q then some v else none

/-- Header assembly from the constructor:
`\x7b Cookie: cookieJar.getCookieString(), ...(webSocketHeaders || \x7b\x7d) \x7d` —
the session-cookie entry is written first and the caller-supplied headers are
spread after it. -/
def wsHeaders (cookieString : String) (webSocketHeaders : List (String × String)) :
    List (String × String) :=
  ("Cookie", cookieString) :: webSocketHeaders

/-- The frames handed to the transport within a list of effects, in order. -/
def sentFrames (effects : List Effect) : List PushFrame :=
  effects.filterMap (fun e =>
    match e with
    | Effect.sendFrame frame => some frame
    | _ => none)

/-- A client whose transport connect event has not yet fired: the constructor
sets `connection` and `pingInterval` to null. -/
def freshState : WsState :=
  { connection := none, pingInterval := none, room_id := "123" }

/-- A client in the connected steady state. -/
def connectedState : WsState :=
  { connection := some 1, pingInterval := some (), room_id := "123" }

/-- A fetch result that requires an ack. -/
def sampleResult : ProtoMessageFetchResult :=
  { needsAck := true, internalExt := "abc" }

/-- A decoded container carrying an ack-eligible fetch result. -/
def sampleContainer : DecodedWebcastPushFrame :=
  { logId := some "L1", payloadType := "msg", protoMessageFetchResult := some sampleResult }

/-- A decoded container triggering both the fetch-result branch and the
room-entry branch. -/
def dualContainer : DecodedWebcastPushFrame :=
  { logId := some "L1", payloadType := "im_enter_room_resp",
    protoMessageFetchResult := some sampleResult }

/-- C1: refuted — the connect-time heartbeat is dropped.  `onConnect` calls
`sendHeartbeat()` before storing the connection handle, so on a fresh connect
`sendBytes` still sees a null connection and emits nothing (first conjunct),
even though the handle is stored right afterwards (second conjunct) and the
very same heartbeat send succeeds from the first interval tick onwards (third
conjunct).  Thus zero — not exactly one — heartbeat frames carrying the
connect-time room identifier are emitted at connect time. -/
theorem c1_connect_heartbeat_dropped :
    (onConnect freshState 1).2 = [] ∧
    (onConnect freshState 1).1.connection = some 1 ∧
    (sendHeartbeat (onConnect freshState 1).1).2 =
      [Effect.sendFrame (heartbeatFrame "123")] :=
  ⟨rfl, rfl, rfl⟩

/-- C2 counterexample: the heartbeat frame built by the client carries
`payloadEncoding = "pb"`, not the literal string `"protobuf"`, so the claim as
stated fails on the heartbeat frame for room `"123"`. -/
theorem c2_payload_encoding_counterexample :
    (heartbeatFrame "123").payloadEncoding ≠ "protobuf" := by
  decide

/-- C2 (amended): every outbound frame the client builds — heartbeat, ack, and
room-enter — carries `payloadEncoding = "pb"`, the client's protobuf-encoding
marker. -/
theorem c2_payload_encoding_pb (room_id logId internalExt roomId : String) :
    (heartbeatFrame room_id).payloadEncoding = "pb" ∧
    (ackFrame logId internalExt).payloadEncoding = "pb" ∧
    (switchRoomsFrame roomId).payloadEncoding = "pb" :=
  ⟨rfl, rfl, rfl⟩

/-- C5: every inbound message's first effect is the raw-data (`webSocketData`)
event, and a non-binary message produces exactly the raw-data event followed by
`unknownResponse` — no frame is sent, no decode-failure event is emitted, and
handling stops. -/
theorem c5_raw_data_first_and_non_binary_stops (s : WsState) (m : WsMessage) (d : String) :
    (onMessage s m).2.head? = some (Effect.emit (Event.webSocketData m)) ∧
    (onMessage s (WsMessage.text d)).2 =
      [Effect.emit (Event.webSocketData (WsMessage.text d)),
       Effect.emit (Event.unknownResponse (WsMessage.text d))] := by
  constructor
  · cases m with
    | text d2 => rfl
    | binary dr =>
      cases dr with
      | err e => rfl
      | ok c =>
        cases hpm : c.protoMessageFetchResult with
        | none => simp [onMessage, hpm]
        | some r =>
          cases hA : (if r.needsAck then sendAck s c else AckResult.ok []) with
          | thrown e => simp [onMessage, hpm, hA]
          | ok es => simp [onMessage, hpm, hA]
  · rfl

/-- C6: a binary message whose decode fails produces exactly the raw-data event
followed by `messageDecodingFailed` carrying the error (no close request, no
close event, no frame), leaves the state — in particular the connection
handle — unchanged, and the failure is isolated: processing the failing message
followed by any message N+1 yields exactly the failure effects followed by
N+1's effects from the same state. -/
theorem c6_decode_failure_isolated (s : WsState) (e : String) (m2 : WsMessage) :
    (onMessage s (WsMessage.binary (DecodeResult.err e))).2 =
      [Effect.emit (Event.webSocketData (WsMessage.binary (DecodeResult.err e))),
       Effect.emit (Event.messageDecodingFailed e)] ∧
    (onMessage s (WsMessage.binary (DecodeResult.err e))).1 = s ∧
    processMessages s [WsMessage.binary (DecodeResult.err e), m2] =
      ((processMessages s [m2]).1,
        Effect.emit (Event.webSocketData (WsMessage.binary (DecodeResult.err e))) ::
        Effect.emit (Event.messageDecodingFailed e) ::
        (processMessages s [m2]).2) :=
  ⟨rfl, rfl, rfl⟩

/-- C7: `close()` with a non-null connection handle requests a transport close
with the normal-closure code 1000 and its completion is deferred to the close
event; with a null handle it sends nothing and completes immediately; and the
transport close handler is what emits the close event that resolves the
deferred completion. -/
theorem c7_close_protocol (s : WsState) (n : Nat) :
    close { s with connection := some n } =
      ([Effect.closeRequest 1000], CloseCompletion.onCloseEvent) ∧
    close { s with connection := none } = ([], CloseCompletion.immediate) ∧
    (onDisconnect s).2 = [Effect.emit Event.close] :=
  ⟨rfl, rfl, rfl⟩

/-- C9: `sendBytes` returns `false` with no effects and an unchanged state when
the connection handle is null, and returns `true` having handed the frame to
the connection otherwise; no fault is raised in either case. -/
theorem c9_send_without_connection (s : WsState) (f : PushFrame) (n : Nat) :
    sendBytes { s with connection := none } f =
      ({ s with connection := none }, false, []) ∧
    sendBytes { s with connection := some n } f =
      ({ s with connection := some n }, true, [Effect.sendFrame f]) :=
  ⟨rfl, rfl⟩

/-- C3: with an active connection, a decoded container carrying a fetch result
with `needsAck = true` and a non-empty `logId` causes exactly one frame to be
sent — the ack frame with the same `logId`, `payloadType = "ack"`, and payload
the UTF-8 bytes of `internalExt`; with an absent or empty `logId` zero frames
are sent and `sendAck` returns normally with no effects (silent no-op). -/
theorem c3_ack_correlation (s : WsState) (c : DecodedWebcastPushFrame)
    (r : ProtoMessageFetchResult) (n : Nat)
    (hconn : s.connection = some n)
    (hres : c.protoMessageFetchResult = some r)
    (hack : r.needsAck = true) :
    (∀ l : String, c.logId = some l → l.isEmpty = false →
      sentFrames (onMessage s (WsMessage.binary (DecodeResult.ok c))).2 =
        [ackFrame l r.internalExt] ∧
      (ackFrame l r.internalExt).logId = some l ∧
      (ackFrame l r.internalExt).payloadType = "ack" ∧
      (ackFrame l r.internalExt).payload = Payload.utf8Text r.internalExt) ∧
    ((c.logId = none ∨ c.logId = some "") →
      sentFrames (onMessage s (WsMessage.binary (DecodeResult.ok c))).2 = [] ∧
      sendAck s c = AckResult.ok []) := by
  obtain ⟨lid, pt, pm⟩ := c
  simp only at hres
  subst hres
  constructor
  · intro l hl hle
    simp only at hl
    subst hl
    refine ⟨?_, rfl, rfl, rfl⟩
    simp [onMessage, sendAck, hack, hle, sendBytes, hconn, sentFrames]
  · intro hlid
    simp only at hlid
    rcases hlid with h | h <;> subst h <;>
      simp [onMessage, sendAck, hack, sentFrames, String.isEmpty]

/-- C3 witness: the connected client receiving a container with
`logId = "L1"`, `needsAck = true`, `internalExt = "abc"` sends exactly the ack
frame for `"L1"`. -/
theorem c3_ack_correlation_witness :
    connectedState.connection = some 1 ∧
    sampleContainer.protoMessageFetchResult = some sampleResult ∧
    sampleResult.needsAck = true ∧
    sentFrames (onMessage connectedState
        (WsMessage.binary (DecodeResult.ok sampleContainer))).2 =
      [ackFrame "L1" sampleResult.internalExt] :=
  ⟨rfl, rfl, rfl,
    ((c3_ack_correlation connectedState sampleContainer sampleResult 1 rfl rfl rfl).1
      "L1" rfl (by decide)).1⟩

/-- C4: for every successfully decoded container the effect trace is: the
raw-data event, then — when the container carries a fetch result — the ack's
effects (exactly when `needsAck`) followed by the `protoMessageFetchResult`
event, published regardless of the ack outcome; and then, independently, the
`imEnteredRoom` event exactly when `payloadType = "im_enter_room_resp"`,
whether or not a fetch result is present — the two branches are not mutually
exclusive.  Moreover, whenever a fetch result is present, `sendAck` never
throws. -/
theorem c4_dispatch_order (s : WsState) (c : DecodedWebcastPushFrame) :
    (onMessage s (WsMessage.binary (DecodeResult.ok c))).2 =
      Effect.emit (Event.webSocketData (WsMessage.binary (DecodeResult.ok c))) ::
        ((match c.protoMessageFetchResult with
          | some r =>
            (if r.needsAck then ackEffectsOf s c else []) ++
              [Effect.emit (Event.protoMessageFetchResult r)]
          | none => []) ++
          (if c.payloadType = "im_enter_room_resp"
           then [Effect.emit (Event.imEnteredRoom c)] else [])) ∧
    (∀ r : ProtoMessageFetchResult, c.protoMessageFetchResult = some r →
      ackOk (sendAck s c) = true) := by
  obtain ⟨lid, pt, pm⟩ := c
  constructor
  · cases pm with
    | none => simp [onMessage]
    | some r =>
      cases hack : r.needsAck with
      | false => simp [onMessage, hack]
      | true =>
        cases lid with
        | none => simp [onMessage, sendAck, hack, ackEffectsOf]
        | some l =>
          by_cases hle : l.isEmpty <;>
            simp [onMessage, sendAck, hack, hle, ackEffectsOf]
  · intro r hr
    simp only at hr
    subst hr
    cases lid with
    | none => simp [sendAck, ackOk]
    | some l =>
      by_cases hle : l.isEmpty <;> simp [sendAck, ackOk, hle]

/-- C4 witness: a container with both a fetch result needing an ack and
`payloadType = "im_enter_room_resp"` triggers both branches, with the ack
effects before the fetch-result event, and `sendAck` returns normally on it. -/
theorem c4_dispatch_order_witness :
    dualContainer.protoMessageFetchResult = some sampleResult ∧
    ackOk (sendAck connectedState dualContainer) = true ∧
    (onMessage connectedState (WsMessage.binary (DecodeResult.ok dualContainer))).2 =
      Effect.emit (Event.webSocketData (WsMessage.binary (DecodeResult.ok dualContainer))) ::
        ((match dualContainer.protoMessageFetchResult with
          | some r =>
            (if r.needsAck then ackEffectsOf connectedState dualContainer else []) ++
              [Effect.emit (Event.protoMessageFetchResult r)]
          | none => []) ++
          (if dualContainer.payloadType = "im_enter_room_resp"
           then [Effect.emit (Event.imEnteredRoom dualContainer)] else [])) :=
  ⟨rfl,
    (c4_dispatch_order connectedState dualContainer).2 sampleResult rfl,
    (c4_dispatch_order connectedState dualContainer).1⟩

/-- C8: with an active connection, `switchRooms roomId` hands exactly one frame
to the transport — payloadType `"im_enter_room"`, payload encoding the supplied
`roomId` together with `liveId = "12"`, `identity = "audience"`,
`accountType = "0"`, `filterWelcomeMsg = "0"`,
`isAnchorContinueKeepMsg = false` and empty `roomTag`, `liveRegion`, `cursor`,
`enterUniqueId` — and leaves the state unchanged, so the connect-time room
parameter used by the heartbeat is untouched. -/
theorem c8_switch_rooms_framing (s : WsState) (roomId : String) (n : Nat)
    (hconn : s.connection = some n) :
    (switchRooms s roomId).2 = [Effect.sendFrame (switchRoomsFrame roomId)] ∧
    (switchRoomsFrame roomId).payloadType = "im_enter_room" ∧
    (switchRoomsFrame roomId).payload =
      Payload.imEnterRoom
        { roomId := roomId, roomTag := "", liveRegion := "", liveId := "12",
          identity := "audience", cursor := "", accountType := "0",
          enterUniqueId := "", filterWelcomeMsg := "0",
          isAnchorContinueKeepMsg := false } ∧
    (switchRooms s roomId).1 = s ∧
    heartbeatFrame (switchRooms s roomId).1.room_id = heartbeatFrame s.room_id := by
  refine ⟨?_, rfl, rfl, rfl, rfl⟩
  simp [switchRooms, sendBytes, hconn]

/-- C8 witness: the connected client switching to room `"456"` sends exactly
the room-enter frame for `"456"`. -/
theorem c8_switch_rooms_framing_witness :
    connectedState.connection = some 1 ∧
    (switchRooms connectedState "456").2 =
      [Effect.sendFrame (switchRoomsFrame "456")] :=
  ⟨rfl, (c8_switch_rooms_framing connectedState "456" 1 rfl).1⟩

/-- C10: in the assembled handshake headers the session cookie is written
before the caller-supplied headers are spread, so a caller-supplied `"Cookie"`
entry overrides the session cookie, every other caller-supplied entry is kept
alongside, and the session cookie survives only when the caller supplies no
`"Cookie"` entry. -/
theorem c10_cookie_header_override (cookieString : String)
    (webSocketHeaders : List (String × String)) (k v : String) :
    (objGet webSocketHeaders "Cookie" = some v →
      objGet (wsHeaders cookieString webSocketHeaders) "Cookie" = some v) ∧
    (objGet webSocketHeaders k = some v →
      objGet (wsHeaders cookieString webSocketHeaders) k = some v) ∧
    (objGet webSocketHeaders "Cookie" = none →
      objGet (wsHeaders cookieString webSocketHeaders) "Cookie" = some cookieString) := by
  refine ⟨?_, ?_, ?_⟩ <;> intro h <;> simp [wsHeaders, objGet, h]

/-- C10 witness: a caller-supplied `Cookie: override` header replaces the
session cookie `jar` in the assembled headers. -/
theorem c10_cookie_header_override_witness :
    objGet [("Cookie", "override"), ("X-Test", "1")] "Cookie" = some "override" ∧
    objGet (wsHeaders "jar" [("Cookie", "override"), ("X-Test", "1")]) "Cookie" =
      some "override" :=
  ⟨by decide,
    (c10_cookie_header_override "jar" [("Cookie", "override"), ("X-Test", "1")]
      "Cookie" "override").1 (by decide)⟩
